import Mathlib

/-!
Verification of the fastapi-ecommerce product catalog service.

The development shallowly embeds the two source files of the repository:
`app/schema/product.py` (the pydantic validation model: `Product`,
`Seller`, `DimensionsCM`, `ProductUpdate` and their validators) and
`app/main.py` (the HTTP command handlers: `list_products`,
`create_product`, `delete_product`, `update_product`).

Modelling conventions:
- Python strings are `String` (operated on through their `List Char` data);
  Python floats carrying prices/ratings/dimensions are `ℚ`; Python ints are
  `ℤ`; `None`/absent values are `Option`.
- pydantic `Field` constraints and the custom validators are translated into
  executable `Bool` predicates, one per source constraint.
- pydantic v2 treats a field without a default as required even when typed
  `Optional`; every `ProductUpdate` field lacks a default, so raw update
  bodies (`ProductUpdatePayload`) distinguish an absent key — rejected with a
  422 "Field required" parse error — from an explicit null, which parses to
  `None`.
- The `service.products` module (persistence gateway) is not part of the two
  source files; its operations are modelled from the spec (§4.2) and each such
  definition is marked `Modelled from the spec:` in its doc comment.
- `EmailStr`/`AnyUrl` well-formedness checks are internal to the pydantic
  library, not code of this repository; they are not modelled (no claim
  depends on them).
-/

namespace Ecom

/-! ## String helpers (Python string operations used by the source) -/

/-- Python `a.startswith(b)` on character lists: `leadsList b a` is true when
`b` is an initial segment of `a`. -/
def leadsList : List Char → List Char → Bool
  | [], _ => true
  | _ :: _, [] => false
  | a :: as, b :: bs => a == b && leadsList as bs

/-- Python `needle in hay` for strings: substring containment. -/
def containsSub : List Char → List Char → Bool
  | needle, [] => needle.isEmpty
  | needle, c :: t => leadsList needle (c :: t) || containsSub needle t

/-- Python `s.lower()`. -/
def lowerStr (l : List Char) : List Char := l.map Char.toLower

/-- Python `s.strip()`: drop whitespace from both ends. -/
def stripStr (l : List Char) : List Char :=
  ((l.dropWhile Char.isWhitespace).reverse.dropWhile Char.isWhitespace).reverse

/-- Python `s.split(sep)[-1]`: the segment after the last occurrence of `sep`
(the whole string when `sep` does not occur). -/
def afterLastSplit (sep : Char) (l : List Char) : List Char :=
  (l.reverse.takeWhile (fun c => c ≠ sep)).reverse

/-- Length of a string in characters. -/
def strLen (s : String) : Nat := s.data.length

/-- Floor of a rational as an integer (`Int.fdiv` floors the quotient). -/
def floorQ (x : ℚ) : ℤ := Int.fdiv x.num (x.den : ℤ)

/-- Python `round(x)`: round half to even, modelled exactly over ℚ. -/
def pyRound0 (x : ℚ) : ℤ :=
  let n := floorQ x
  let r := x - (n : ℚ)
  if r < 1/2 then n
  else if 1/2 < r then n + 1
  else if n % 2 = 0 then n else n + 1

/-- Python `round(x, 2)` over exact rationals: round to 2 decimal places. -/
def round2 (x : ℚ) : ℚ := (pyRound0 (x * 100) : ℚ) / 100

/-! ## Data model (app/schema/product.py) -/

/-- Structure `DimensionsCM` from app/schema/product.py: product dimensions in cm. -/
structure DimensionsCM where
  length : ℚ
  width : ℚ
  height : ℚ
  deriving DecidableEq, Repr

/-- Structure `Seller` from app/schema/product.py (nested in `Product`). -/
structure Seller where
  id : String
  name : String
  email : String
  website : String
  deriving DecidableEq, Repr

/-- Structure `Product` from app/schema/product.py: the create-side pydantic model.
`id` and `created_at` are required fields of the request schema. -/
structure Product where
  id : String
  sku : String
  name : String
  description : String
  category : String
  brand : String
  price : ℚ
  currency : String
  discount_percent : ℤ
  stock : ℤ
  is_active : Bool
  rating : ℚ
  tags : Option (List String)
  image_urls : List String
  dimensions_cm : DimensionsCM
  seller : Seller
  created_at : String
  deriving DecidableEq, Repr

/-- The seller-domain allow-list from `validate_seller_email_domain`. -/
def allowed_domains : List String :=
  ["mistore.in", "realmeofficial.in", "samsungindia.in", "lenovostore.in",
   "hpworld.in", "applestoreindia.in", "dellexclusive.in", "sonycenter.in",
   "oneplusstore.in", "asusexclusive.in"]

/-- Python `str(value).split("@")[-1].lower()` from the email validator. -/
def emailDomain (email : String) : String :=
  String.mk (lowerStr (afterLastSplit '@' email.data))

/-- Validator `Seller.validate_seller_email_domain`: the domain after the last `@`,
lowercased, must belong to the allow-list. -/
def validate_seller_email_domain (email : String) : Bool :=
  allowed_domains.contains (emailDomain email)

/-- Validator `Product.validate_sku_format`: the SKU must contain a hyphen and the
segment after the last hyphen (`value.split("-")[-1]`) must be exactly
3 digits. -/
def validate_sku_format (sku : String) : Bool :=
  sku.data.contains '-' &&
    ((afterLastSplit '-' sku.data).length == 3 &&
      (afterLastSplit '-' sku.data).all Char.isDigit)

/-- The pydantic `Field` constraint on `Product.sku` (`min_length=6`,
`max_length=30`) together with the custom `validate_sku_format` validator. -/
def sku_checks (s : String) : Bool :=
  (6 ≤ strLen s && strLen s ≤ 30) && validate_sku_format s

/-- The `Field(gt=0)` constraints of `DimensionsCM`. -/
def dimensionsFieldsOk (d : DimensionsCM) : Bool :=
  decide (0 < d.length) && decide (0 < d.width) && decide (0 < d.height)

/-- The `Field` constraints of `Seller` (name 2–60 chars) together with the
email-domain validator. -/
def sellerFieldsOk (s : Seller) : Bool :=
  (2 ≤ strLen s.name && strLen s.name ≤ 60) && validate_seller_email_domain s.email

/-- The per-field `Field` constraints of `Product` as they appear in the
source.  Note `image_urls` carries `Field(max_length=1)` in the source (its
description string says "At least 1 image url"); the constraint enforced is
`length ≤ 1` and no minimum. -/
def productFieldsOk (p : Product) : Bool :=
  sku_checks p.sku &&
  (3 ≤ strLen p.name && strLen p.name ≤ 80) &&
  strLen p.description ≤ 200 &&
  (3 ≤ strLen p.category && strLen p.category ≤ 30) &&
  (2 ≤ strLen p.brand && strLen p.brand ≤ 40) &&
  decide (0 < p.price) &&
  p.currency == "INR" &&
  (decide (0 ≤ p.discount_percent) && decide (p.discount_percent ≤ 90)) &&
  decide (0 ≤ p.stock) &&
  (decide (0 ≤ p.rating) && decide (p.rating ≤ 5)) &&
  (match p.tags with
   | none => true
   | some t => t.length ≤ 10) &&
  p.image_urls.length ≤ 1 &&
  dimensionsFieldsOk p.dimensions_cm &&
  sellerFieldsOk p.seller

/-- Validator `Product.validate_business_rules`: rejects `stock == 0 ∧ is_active` and
`discount_percent > 0 ∧ rating == 0`. -/
def Product.validate_business_rules (p : Product) : Bool :=
  !(p.stock == 0 && p.is_active) && !(decide (0 < p.discount_percent) && p.rating == 0)

/-- Full pydantic acceptance of a create payload: all field constraints, the
custom field validators, and the model-level business rules. -/
def productValid (p : Product) : Bool :=
  productFieldsOk p && Product.validate_business_rules p

/-- Computed field `Product.final_price`. -/
def Product.final_price (p : Product) : ℚ :=
  round2 (p.price * (1 - (p.discount_percent : ℚ) / 100))

/-- Computed field `Product.volume_cm3`. -/
def Product.volume_cm3 (p : Product) : ℚ :=
  round2 (p.dimensions_cm.length * p.dimensions_cm.width * p.dimensions_cm.height)

/-- A serialized product record (`model_dump(mode="json")` output): all stored
fields plus the computed fields. -/
structure ProductOut where
  id : String
  sku : String
  name : String
  description : String
  category : String
  brand : String
  price : ℚ
  currency : String
  discount_percent : ℤ
  stock : ℤ
  is_active : Bool
  rating : ℚ
  tags : Option (List String)
  image_urls : List String
  dimensions_cm : DimensionsCM
  seller : Seller
  created_at : String
  final_price : ℚ
  volume_cm3 : ℚ
  deriving DecidableEq, Repr

/-- Serialization `product.model_dump(mode="json")`: every stored field and the
two computed fields. -/
def model_dump (p : Product) : ProductOut :=
  { id := p.id, sku := p.sku, name := p.name, description := p.description,
    category := p.category, brand := p.brand, price := p.price,
    currency := p.currency, discount_percent := p.discount_percent,
    stock := p.stock, is_active := p.is_active, rating := p.rating,
    tags := p.tags, image_urls := p.image_urls,
    dimensions_cm := p.dimensions_cm, seller := p.seller,
    created_at := p.created_at,
    final_price := p.final_price, volume_cm3 := p.volume_cm3 }

/-! ## Update model (app/schema/product.py, `ProductUpdate`) -/

/-- Structure `DimensionsCMUpdate`: every dimension optional. -/
structure DimensionsCMUpdate where
  length : Option ℚ
  width : Option ℚ
  height : Option ℚ
  deriving DecidableEq, Repr

/-- Structure `SellerUpdate`: every seller field optional. -/
structure SellerUpdate where
  name : Option String
  email : Option String
  website : Option String
  deriving DecidableEq, Repr

/-- Structure `ProductUpdate` from app/schema/product.py: the update-side
pydantic model after parsing.  Every field is typed `Optional` but has no
default, so pydantic v2 treats each as required: a request body must supply
every key, with an explicit JSON null allowed.  A `none` here therefore
models an explicit null, not an absent key; absent keys are rejected at parse
time (see `ProductUpdatePayload.complete`). -/
structure ProductUpdate where
  name : Option String
  description : Option String
  category : Option String
  brand : Option String
  price : Option ℚ
  currency : Option String
  discount_percent : Option ℤ
  stock : Option ℤ
  is_active : Option Bool
  rating : Option ℚ
  tags : Option (List String)
  image_urls : Option (List String)
  dimensions_cm : Option DimensionsCMUpdate
  seller : Option SellerUpdate
  deriving DecidableEq, Repr

/-- A pydantic constraint on an `Optional`-typed field: the constraint
applies to the non-null branch only, so an explicit null passes. -/
def optCheck {α : Type} (f : α → Bool) : Option α → Bool
  | none => true
  | some a => f a

/-- The per-field `Field` constraints of `ProductUpdate`, `SellerUpdate` and
`DimensionsCMUpdate`: identical bounds to the create model on the fields that
carry them, applied to the non-null values.  Requiredness of the keys
themselves is the parse-time completeness check on the payload
(`ProductUpdatePayload.complete`), which runs before these constraints. -/
def ProductUpdate.fieldsOk (u : ProductUpdate) : Bool :=
  optCheck (fun s => 3 ≤ strLen s && strLen s ≤ 80) u.name &&
  optCheck (fun s => strLen s ≤ 200) u.description &&
  optCheck (fun p => decide ((0 : ℚ) < p)) u.price &&
  optCheck (fun c => c == "INR") u.currency &&
  optCheck (fun d => decide ((0 : ℤ) ≤ d) && decide (d ≤ 90)) u.discount_percent &&
  optCheck (fun s => decide ((0 : ℤ) ≤ s)) u.stock &&
  optCheck (fun r => decide ((0 : ℚ) ≤ r) && decide (r ≤ 5)) u.rating &&
  optCheck (fun t => t.length ≤ 10) u.tags &&
  optCheck (fun d => optCheck (fun x => decide ((0 : ℚ) < x)) d.length &&
                     optCheck (fun x => decide ((0 : ℚ) < x)) d.width &&
                     optCheck (fun x => decide ((0 : ℚ) < x)) d.height) u.dimensions_cm &&
  optCheck (fun s => optCheck (fun n => 2 ≤ strLen n && strLen n ≤ 60) s.name &&
                     optCheck validate_seller_email_domain s.email) u.seller

/-- Outcome of `ProductUpdate.validate_business_rules` on a parsed payload:
pydantic turns a raised `ValueError` into a validation error, while a Python
`TypeError` (from comparing `None` with an int) escapes the model validator. -/
inductive UpdateRuleResult where
  | ok : UpdateRuleResult
  | validationError (msg : String) : UpdateRuleResult
  | typeError : UpdateRuleResult
  deriving DecidableEq, Repr

/-- Validator `ProductUpdate.validate_business_rules`, evaluated as the
source writes it, on the update payload object itself (never on the merged
record): `model.stock == 0` is false when `stock` is null; `model.is_active
is True` holds only for an explicit `True`; `model.discount_percent > 0`
raises `TypeError` when `discount_percent` is null (`None > 0` in Python);
`model.rating == 0` is false when `rating` is null. -/
def ProductUpdate.validate_business_rules (u : ProductUpdate) : UpdateRuleResult :=
  if u.stock == some 0 && u.is_active == some true then
    .validationError "If stock is 0, is_active must be false"
  else
    match u.discount_percent with
    | none => .typeError
    | some d =>
      if decide (0 < d) && u.rating == some 0 then
        .validationError "Discounted product must have a rating (rating != 0)"
      else .ok

/-- Computed field `ProductUpdate.final_price`: `self.price * (1 -
self.discount_percent / 100)` raises `TypeError` (modelled as `none`) when
`price` or `discount_percent` is `None`. -/
def ProductUpdate.final_price (u : ProductUpdate) : Option ℚ :=
  match u.price, u.discount_percent with
  | some p, some d => some (round2 (p * (1 - (d : ℚ) / 100)))
  | _, _ => none

/-- Computed field `ProductUpdate.volume_cm3`: dereferences
`self.dimensions_cm.length/width/height`, raising (modelled as `none`) when
`dimensions_cm` or any of its components is `None`. -/
def ProductUpdate.volume_cm3 (u : ProductUpdate) : Option ℚ :=
  match u.dimensions_cm with
  | none => none
  | some d =>
    match d.length, d.width, d.height with
    | some a, some b, some c => some (round2 (a * b * c))
    | _, _, _ => none

/-! ## Update request payloads (raw JSON bodies, before pydantic parsing)

Pydantic v2 makes a field without a default required even when its type is
`Optional`, and every field of `ProductUpdate`, `SellerUpdate` and
`DimensionsCMUpdate` lacks a default (contrast `Product.tags`, which has
`default=None`).  A raw body therefore distinguishes, per key: absent
(`none`, a 422 "Field required" parse error), present null (`some none`),
and present with a value (`some (some v)`). -/

/-- Raw body for the nested `dimensions_cm` object of an update. -/
structure DimensionsCMUpdatePayload where
  length : Option (Option ℚ)
  width : Option (Option ℚ)
  height : Option (Option ℚ)
  deriving DecidableEq, Repr

/-- Raw body for the nested `seller` object of an update. -/
structure SellerUpdatePayload where
  name : Option (Option String)
  email : Option (Option String)
  website : Option (Option String)
  deriving DecidableEq, Repr

/-- Raw `PUT /products/{id}` body: each key absent, null, or valued. -/
structure ProductUpdatePayload where
  name : Option (Option String)
  description : Option (Option String)
  category : Option (Option String)
  brand : Option (Option String)
  price : Option (Option ℚ)
  currency : Option (Option String)
  discount_percent : Option (Option ℤ)
  stock : Option (Option ℤ)
  is_active : Option (Option Bool)
  rating : Option (Option ℚ)
  tags : Option (Option (List String))
  image_urls : Option (Option (List String))
  dimensions_cm : Option (Option DimensionsCMUpdatePayload)
  seller : Option (Option SellerUpdatePayload)
  deriving DecidableEq, Repr

/-- Requiredness of the nested dimension keys: all three must be present. -/
def DimensionsCMUpdatePayload.complete (d : DimensionsCMUpdatePayload) : Bool :=
  d.length.isSome && d.width.isSome && d.height.isSome

/-- Requiredness of the nested seller keys: all three must be present. -/
def SellerUpdatePayload.complete (s : SellerUpdatePayload) : Bool :=
  s.name.isSome && s.email.isSome && s.website.isSome

/-- Pydantic v2 requiredness for `ProductUpdate`: every one of the 14
default-less keys must be present (an explicit null is fine), and a non-null
nested object must itself carry all of its default-less keys.  A payload
failing this check is rejected with 422 "Field required" errors before any
constraint or model validator runs. -/
def ProductUpdatePayload.complete (p : ProductUpdatePayload) : Bool :=
  p.name.isSome && p.description.isSome && p.category.isSome &&
  p.brand.isSome && p.price.isSome && p.currency.isSome &&
  p.discount_percent.isSome && p.stock.isSome && p.is_active.isSome &&
  p.rating.isSome && p.tags.isSome && p.image_urls.isSome &&
  (match p.dimensions_cm with
   | none => false
   | some none => true
   | some (some d) => d.complete) &&
  (match p.seller with
   | none => false
   | some none => true
   | some (some s) => s.complete)

/-- The parsed nested dimensions model of a complete payload. -/
def DimensionsCMUpdatePayload.toModel (d : DimensionsCMUpdatePayload) :
    DimensionsCMUpdate :=
  ⟨d.length.getD none, d.width.getD none, d.height.getD none⟩

/-- The parsed nested seller model of a complete payload. -/
def SellerUpdatePayload.toModel (s : SellerUpdatePayload) : SellerUpdate :=
  ⟨s.name.getD none, s.email.getD none, s.website.getD none⟩

/-- The parsed `ProductUpdate` model of a complete payload: every key was
present, so its value (null or not) is taken as the field's value. -/
def ProductUpdatePayload.toModel (p : ProductUpdatePayload) : ProductUpdate :=
  { name := p.name.getD none, description := p.description.getD none,
    category := p.category.getD none, brand := p.brand.getD none,
    price := p.price.getD none, currency := p.currency.getD none,
    discount_percent := p.discount_percent.getD none,
    stock := p.stock.getD none, is_active := p.is_active.getD none,
    rating := p.rating.getD none, tags := p.tags.getD none,
    image_urls := p.image_urls.getD none,
    dimensions_cm :=
      match p.dimensions_cm with
      | some (some d) => some d.toModel
      | _ => none,
    seller :=
      match p.seller with
      | some (some s) => some s.toModel
      | _ => none }

/-! ## Persistence gateway (service.products, modelled from the spec) -/

/-- An HTTP error response: `HTTPException(status_code, detail)`. -/
structure HTTPError where
  status : Nat
  detail : String
  deriving DecidableEq, Repr

/-- Modelled from the spec: `service.products.add_product` is not under the
source files; per §4.2 insert fails with `DuplicateId` if the id already
exists, otherwise appends the record and persists the whole collection. -/
def add_product (store : List ProductOut) (rec : ProductOut) :
    Except String (List ProductOut) :=
  if store.any (fun q => q.id == rec.id) then .error "DuplicateId"
  else .ok (store ++ [rec])

/-- Modelled from the spec: `service.products.remove_product` is not under
the source files; per §4.2 delete fails with `NotFound` if the id is absent,
otherwise removes the record, persists, and returns the removed record. -/
def remove_product (store : List ProductOut) (pid : String) :
    Except String (ProductOut × List ProductOut) :=
  match store.find? (fun q => q.id == pid) with
  | none => .error ("Product not found: " ++ pid)
  | some rec => .ok (rec, store.filter (fun q => q.id != pid))

/-- Merge of the dumped update payload (its non-null fields plus its computed
fields) onto a stored record; nested seller/dimension fields merge
component-wise.  Since pydantic v2 requiredness means every key is present in
the dump, "only fields explicitly present are changed" (spec §3) is read as
the non-null fields: a null leaves the stored field unchanged. -/
def applyPatch (rec : ProductOut) (u : ProductUpdate) (fp vol : ℚ) : ProductOut :=
  { rec with
    name := u.name.getD rec.name,
    description := u.description.getD rec.description,
    category := u.category.getD rec.category,
    brand := u.brand.getD rec.brand,
    price := u.price.getD rec.price,
    currency := u.currency.getD rec.currency,
    discount_percent := u.discount_percent.getD rec.discount_percent,
    stock := u.stock.getD rec.stock,
    is_active := u.is_active.getD rec.is_active,
    rating := u.rating.getD rec.rating,
    tags := (u.tags.map some).getD rec.tags,
    image_urls := u.image_urls.getD rec.image_urls,
    dimensions_cm :=
      match u.dimensions_cm with
      | none => rec.dimensions_cm
      | some d => { length := d.length.getD rec.dimensions_cm.length,
                    width := d.width.getD rec.dimensions_cm.width,
                    height := d.height.getD rec.dimensions_cm.height },
    seller :=
      match u.seller with
      | none => rec.seller
      | some s => { rec.seller with
                    name := s.name.getD rec.seller.name,
                    email := s.email.getD rec.seller.email,
                    website := s.website.getD rec.seller.website },
    final_price := fp,
    volume_cm3 := vol }

/-- Modelled from the spec: `service.products.change_product` is not under
the source files; per §4.2 update fails with `NotFound` (`ValueError`) if the
id is absent, otherwise merges the dumped payload fields onto the stored
record, persists, and returns the merged record.  Per §9 the source evaluates
business rules against the partial payload only, so no post-merge
re-validation occurs here. -/
def change_product (store : List ProductOut) (pid : String)
    (u : ProductUpdate) (fp vol : ℚ) :
    Except String (ProductOut × List ProductOut) :=
  match store.find? (fun q => q.id == pid) with
  | none => .error ("Product not found: " ++ pid)
  | some rec =>
    let merged := applyPatch rec u fp vol
    .ok (merged, store.map (fun q => if q.id == pid then merged else q))

/-! ## Command handlers (app/main.py) -/

/-- The name filter of `list_products` (`if name:` — Python truthiness, so
`None` and `""` leave the list unfiltered): keep products whose lowercased
name contains the stripped, lowercased needle. -/
def filterByName (store : List ProductOut) (name : Option String) :
    List ProductOut :=
  match name with
  | none => store
  | some n =>
    if n.data.isEmpty then store
    else store.filter
      (fun p => containsSub (lowerStr (stripStr n.data)) (lowerStr p.name.data))

/-- The comparison induced by `sorted(products, key=lambda p: p.get("price",
0), reverse=reverse)`: compare prices, flipped when `reverse` is set. -/
def priceLe (reverse : Bool) (a b : ProductOut) : Bool :=
  if reverse then decide (b.price ≤ a.price) else decide (a.price ≤ b.price)

/-- Python's `sorted` with a key and a `reverse` flag: a stable sort under
the (total, transitive) comparison `priceLe reverse`; `reverse=True` also
keeps equal keys in their original relative order.  A stable sort under a
total preorder is extensionally unique, so insertion sort with ties kept in
input order is exactly Python's `sorted`. -/
def pySorted (reverse : Bool) (l : List ProductOut) : List ProductOut :=
  l.insertionSort (fun a b => priceLe reverse a b = true)

/-- The optional price sort of `list_products`. -/
def maybeSort (sort_by_price : Bool) (order : String) (l : List ProductOut) :
    List ProductOut :=
  if sort_by_price then pySorted (order == "desc") l else l

/-- The successful response shape of `list_products`:
`{"total": ..., "limit": ..., "items": ...}`. -/
structure ListResponse where
  total : Nat
  limit : Nat
  items : List ProductOut
  deriving DecidableEq, Repr

/-- The 404 detail string of `list_products`
(`f"No product found matching name={name}"`). -/
def listNotFoundDetail (name : Option String) : String :=
  "No product found matching name=" ++ (match name with
    | none => "None"
    | some s => s)

/-- Handler `list_products` from app/main.py: filter by name when the parameter is
truthy, 404 when nothing remains, optionally sort by price, then `total` and
the slice `products[offset : offset + limit]`. -/
def list_products (store : List ProductOut) (name : Option String)
    (sort_by_price : Bool) (order : String) (limit offset : Nat) :
    Except HTTPError ListResponse :=
  let products := filterByName store name
  if products.isEmpty then
    .error ⟨404, listNotFoundDetail name⟩
  else
    let sorted := maybeSort sort_by_price order products
    .ok ⟨sorted.length, limit, (sorted.drop offset).take limit⟩

/-- Handler `create_product` from app/main.py: dump the validated payload, overwrite
`id` with a fresh UUID and `created_at` with the current UTC timestamp in the
dict that is stored, store it (`ValueError` maps to 400), and return the dump
of the original payload object.  `freshId` and `now` stand for `str(uuid4())`
and `datetime.utcnow().isoformat() + "Z"`. -/
def create_product (freshId now : String) (store : List ProductOut)
    (p : Product) : Except HTTPError (ProductOut × List ProductOut) :=
  let product_dict := { model_dump p with id := freshId, created_at := now }
  match add_product store product_dict with
  | .error e => .error ⟨400, e⟩
  | .ok newStore => .ok (model_dump p, newStore)

/-- Handler `delete_product` from app/main.py: every exception raised by
`remove_product` is caught and mapped to a 400 response carrying the
exception's message. -/
def delete_product (store : List ProductOut) (pid : String) :
    Except HTTPError (ProductOut × List ProductOut) :=
  match remove_product store pid with
  | .ok r => .ok r
  | .error e => .error ⟨400, e⟩

/-- The `PUT /products/{id}` pipeline on a raw body: pydantic v2 first
rejects any payload missing a required key (422 "Field required"), then
checks the per-field constraints on the supplied values and runs the model
validator on the parsed payload object (a raised `ValueError` is a 422
request-validation error; an escaping `TypeError` from `None > 0` is an
unhandled 500); the handler then dumps the payload (`model_dump` computes
`final_price`/`volume_cm3`, whose `TypeError` on null fields is unhandled:
500), and `change_product` merges (`ValueError` — including `NotFound` —
maps to 404 in the handler). -/
def update_endpoint (store : List ProductOut) (pid : String)
    (p : ProductUpdatePayload) :
    Except HTTPError (ProductOut × List ProductOut) :=
  if !p.complete then .error ⟨422, "Field required"⟩
  else
    let u := p.toModel
    if !u.fieldsOk then .error ⟨422, "request validation failed"⟩
    else
      match u.validate_business_rules with
      | .validationError m => .error ⟨422, m⟩
      | .typeError => .error ⟨500, "TypeError: None comparison in validator"⟩
      | .ok =>
        match u.final_price, u.volume_cm3 with
        | some fp, some vol =>
          (match change_product store pid u fp vol with
           | .error e => .error ⟨404, e⟩
           | .ok r => .ok r)
        | _, _ => .error ⟨500, "TypeError: computed field on null value"⟩

/-! ## Concrete test fixtures -/

/-- A seller passing every `Seller` check. -/
def sampleSeller : Seller :=
  { id := "6f6fdace-0dbd-4e34-ab71-09b761b3a8f9", name := "Mi Store",
    email := "seller@mistore.in", website := "https://mistore.in" }

/-- A create payload passing every `Product` check. -/
def sampleProduct : Product :=
  { id := "9c0dba9a-013f-4d88-86dc-18c8dd07b682",
    sku := "XIAO-359GB-001", name := "Xiaomi Model Pro",
    description := "A phone", category := "mobiles", brand := "Xiaomi",
    price := 100, currency := "INR", discount_percent := 0, stock := 5,
    is_active := true, rating := 4, tags := none,
    image_urls := ["https://img.example.in/a.png"],
    dimensions_cm := ⟨10, 5, 2⟩, seller := sampleSeller,
    created_at := "2026-01-01T00:00:00Z" }

/-- A stored record whose `is_active` is `true` and stock positive. -/
def storedActiveRec : ProductOut :=
  model_dump { sampleProduct with id := "c3a1b9e4-57d0-4f43-8f2e-5a9f0c6d1e22", stock := 3 }

/-- A complete update body setting `stock` to 0 and supplying no value for
`is_active` (an explicit null, the only way to leave it unmentioned under
pydantic v2 requiredness); it carries values for `price`, `discount_percent`
and full `dimensions_cm`, which the validator and computed-field
serialization dereference, and nulls everywhere else. -/
def stockZeroPayload : ProductUpdatePayload :=
  { name := some none, description := some none, category := some none,
    brand := some none, price := some (some 50), currency := some none,
    discount_percent := some (some 0), stock := some (some 0),
    is_active := some none, rating := some none, tags := some none,
    image_urls := some none,
    dimensions_cm := some (some ⟨some (some 2), some (some 2), some (some 2)⟩),
    seller := some none }

/-- The record obtained by merging `stockZeroPayload` onto
`storedActiveRec`. -/
def mergedStockZero : ProductOut :=
  applyPatch storedActiveRec stockZeroPayload.toModel 50 8

/-- A create payload with an empty `image_urls` list, valid elsewhere. -/
def emptyImgProduct : Product := { sampleProduct with image_urls := [] }

/-- A create payload with two image URLs, valid elsewhere. -/
def twoImgProduct : Product :=
  { sampleProduct with image_urls := ["https://img.example.in/a.png", "https://img.example.in/b.png"] }

/-- Stored records with assorted prices (including a tie at 3) for the
list-endpoint fixtures. -/
def outA : ProductOut := { model_dump sampleProduct with id := "a", price := 3 }

/-- Stored record with price 7. -/
def outB : ProductOut := { model_dump sampleProduct with id := "b", price := 7 }

/-- Stored record with price 3 again (tie with `outA`). -/
def outC : ProductOut := { model_dump sampleProduct with id := "c", price := 3 }

/-- Stored record with price 5. -/
def outD : ProductOut := { model_dump sampleProduct with id := "d", price := 5 }

/-- Stored record with price 1. -/
def outE : ProductOut := { model_dump sampleProduct with id := "e", price := 1 }

/-- A five-record store for the pagination fixture. -/
def store5 : List ProductOut := [outA, outB, outC, outD, outE]

/-- A store with a price tie (`outA` before `outC`, both priced 3) for the
stable-sort fixture. -/
def storeTie : List ProductOut := [outD, outB, outA, outC]

/-! ## Helper lemmas: `takeWhile` and `afterLastSplit` -/

lemma takeWhile_append_of_all {α : Type} (p : α → Bool) {xs : List α}
    (h : ∀ x ∈ xs, p x = true) (ys : List α) :
    (xs ++ ys).takeWhile p = xs ++ ys.takeWhile p := by
  induction xs with
  | nil => simp
  | cons a t ih =>
    have ha := h a (by simp)
    simp only [List.cons_append, List.takeWhile_cons, ha, if_true]
    rw [ih (fun x hx => h x (by simp [hx]))]

lemma takeWhile_append_of_mem {sep : Char} : ∀ {xs : List Char},
    sep ∈ xs → ∀ ys : List Char,
    (xs ++ ys).takeWhile (fun c => c ≠ sep) = xs.takeWhile (fun c => c ≠ sep)
  | [], h, _ => absurd h (List.not_mem_nil sep)
  | a :: t, h, ys => by
    by_cases ha : a = sep
    · subst ha
      simp [List.takeWhile_cons]
    · have ht : sep ∈ t := by
        rcases List.mem_cons.mp h with h1 | h1
        · exact absurd h1.symm ha
        · exact h1
      simp only [List.cons_append, List.takeWhile_cons, decide_eq_true_eq]
      rw [if_pos ha, if_pos ha, takeWhile_append_of_mem ht ys]

lemma afterLastSplit_append {sep : Char} {a b : List Char} (hb : sep ∉ b) :
    afterLastSplit sep (a ++ sep :: b) = b := by
  unfold afterLastSplit
  rw [List.reverse_append, List.reverse_cons, List.append_assoc]
  rw [takeWhile_append_of_all _ (fun x hx => by
        simp only [decide_eq_true_eq]
        intro hx2
        exact hb (by simpa [hx2] using List.mem_reverse.mp hx)) _]
  simp [List.takeWhile_cons]

lemma afterLastSplit_cons_of_mem {sep c : Char} {t : List Char} (h : sep ∈ t) :
    afterLastSplit sep (c :: t) = afterLastSplit sep t := by
  unfold afterLastSplit
  rw [List.reverse_cons, takeWhile_append_of_mem (List.mem_reverse.mpr h)]

lemma afterLastSplit_decomp {sep : Char} : ∀ {l : List Char}, sep ∈ l →
    ∃ a, l = a ++ sep :: afterLastSplit sep l ∧ sep ∉ afterLastSplit sep l
  | [], h => absurd h (List.not_mem_nil sep)
  | c :: t, h => by
    by_cases hm : sep ∈ t
    · obtain ⟨a, ht, hn⟩ := afterLastSplit_decomp hm
      rw [afterLastSplit_cons_of_mem hm]
      exact ⟨c :: a, by rw [List.cons_append, ← ht], hn⟩
    · have hc : c = sep := by
        rcases List.mem_cons.mp h with h1 | h1
        · exact h1.symm
        · exact absurd h1 hm
      subst hc
      have : afterLastSplit c (c :: t) = t := by
        have := afterLastSplit_append (a := []) (b := t) hm
        simpa using this
      rw [this]
      exact ⟨[], rfl, hm⟩

lemma contains_iff_mem {l : List Char} {c : Char} : l.contains c = true ↔ c ∈ l := by
  simp [List.contains]

/-! ## C8: SKU validation -/

/-- C8: SKU validation accepts exactly the strings of 6–30 characters that
contain at least one hyphen and whose segment after the last hyphen is
exactly 3 digits; `"XIAO-359GB-001"` is accepted, while `"XIAOGB1"` (no
hyphen) and `"XIAO-359GB-A1"` (non-digit 3-char tail) are rejected. -/
theorem sku_validation_characterization :
    (∀ s : String, sku_checks s = true ↔
      (6 ≤ s.data.length ∧ s.data.length ≤ 30 ∧
       ∃ a b, s.data = a ++ '-' :: b ∧ '-' ∉ b ∧ b.length = 3 ∧
         ∀ c ∈ b, c.isDigit = true)) ∧
    sku_checks "XIAO-359GB-001" = true ∧
    sku_checks "XIAOGB1" = false ∧
    sku_checks "XIAO-359GB-A1" = false := by
  refine ⟨?_, by decide, by decide, by decide⟩
  intro s
  constructor
  · intro h
    simp only [sku_checks, strLen, validate_sku_format, Bool.and_eq_true,
      decide_eq_true_eq, beq_iff_eq, List.all_eq_true] at h
    obtain ⟨⟨h6, h30⟩, hcont, hlen, hdig⟩ := h
    have hmem : '-' ∈ s.data := contains_iff_mem.mp hcont
    obtain ⟨a, hsplit, hnot⟩ := afterLastSplit_decomp hmem
    exact ⟨h6, h30, a, afterLastSplit '-' s.data, hsplit, hnot, hlen, hdig⟩
  · rintro ⟨h6, h30, a, b, hsplit, hnot, hlen, hdig⟩
    simp only [sku_checks, strLen, validate_sku_format, Bool.and_eq_true,
      decide_eq_true_eq, beq_iff_eq, List.all_eq_true]
    refine ⟨⟨h6, h30⟩, ?_, ?_, ?_⟩
    · apply contains_iff_mem.mpr
      rw [hsplit]
      exact List.mem_append.mpr (Or.inr (List.mem_cons_self _ _))
    · rw [hsplit, afterLastSplit_append hnot]
      exact hlen
    · rw [hsplit, afterLastSplit_append hnot]
      exact hdig

/-- C8 witness: the characterization applied to the accepted example. -/
theorem sku_validation_characterization_witness :
    6 ≤ "XIAO-359GB-001".data.length ∧ "XIAO-359GB-001".data.length ≤ 30 ∧
    ∃ a b, "XIAO-359GB-001".data = a ++ '-' :: b ∧ '-' ∉ b ∧ b.length = 3 ∧
      ∀ c ∈ b, c.isDigit = true :=
  (sku_validation_characterization.1 "XIAO-359GB-001").mp (by decide)

/-! ## C9: seller email domain validation -/

/-- C9: seller email validation accepts an email exactly when its domain —
the part after the last `@`, lowercased — is one of the 10 approved seller
domains; `seller@mistore.in` is accepted, `seller@randomshop.com` is
rejected. -/
theorem seller_email_domain_characterization :
    (∀ e : String, '@' ∈ e.data →
      (validate_seller_email_domain e = true ↔
        ∃ a b, e.data = a ++ '@' :: b ∧ '@' ∉ b ∧
          (String.mk (lowerStr b) = "mistore.in" ∨
           String.mk (lowerStr b) = "realmeofficial.in" ∨
           String.mk (lowerStr b) = "samsungindia.in" ∨
           String.mk (lowerStr b) = "lenovostore.in" ∨
           String.mk (lowerStr b) = "hpworld.in" ∨
           String.mk (lowerStr b) = "applestoreindia.in" ∨
           String.mk (lowerStr b) = "dellexclusive.in" ∨
           String.mk (lowerStr b) = "sonycenter.in" ∨
           String.mk (lowerStr b) = "oneplusstore.in" ∨
           String.mk (lowerStr b) = "asusexclusive.in"))) ∧
    validate_seller_email_domain "seller@mistore.in" = true ∧
    validate_seller_email_domain "seller@randomshop.com" = false := by
  refine ⟨?_, by decide, by decide⟩
  intro e hmem
  constructor
  · intro h
    obtain ⟨a, hsplit, hnot⟩ := afterLastSplit_decomp hmem
    refine ⟨a, afterLastSplit '@' e.data, hsplit, hnot, ?_⟩
    simp only [validate_seller_email_domain, emailDomain, allowed_domains,
      List.contains, List.elem_eq_mem, decide_eq_true_eq, List.mem_cons,
      List.mem_singleton] at h
    simpa using h
  · rintro ⟨a, b, hsplit, hnot, hdom⟩
    simp only [validate_seller_email_domain, emailDomain, hsplit,
      afterLastSplit_append hnot, allowed_domains, List.contains,
      List.elem_eq_mem, decide_eq_true_eq, List.mem_cons, List.mem_singleton]
    simpa using hdom

/-- C9 witness: the characterization applied to the accepted example. -/
theorem seller_email_domain_characterization_witness :
    ∃ a b, "seller@mistore.in".data = a ++ '@' :: b ∧ '@' ∉ b ∧
      (String.mk (lowerStr b) = "mistore.in" ∨
       String.mk (lowerStr b) = "realmeofficial.in" ∨
       String.mk (lowerStr b) = "samsungindia.in" ∨
       String.mk (lowerStr b) = "lenovostore.in" ∨
       String.mk (lowerStr b) = "hpworld.in" ∨
       String.mk (lowerStr b) = "applestoreindia.in" ∨
       String.mk (lowerStr b) = "dellexclusive.in" ∨
       String.mk (lowerStr b) = "sonycenter.in" ∨
       String.mk (lowerStr b) = "oneplusstore.in" ∨
       String.mk (lowerStr b) = "asusexclusive.in") :=
  (seller_email_domain_characterization.1 "seller@mistore.in" (by decide)).mp
    (by decide)

/-! ## Helper lemmas: the price sort -/

lemma priceLe_total (rev : Bool) (a b : ProductOut) :
    priceLe rev a b = true ∨ priceLe rev b a = true := by
  unfold priceLe
  cases rev <;> simp <;> exact le_total _ _

lemma priceLe_trans (rev : Bool) (a b c : ProductOut) :
    priceLe rev a b = true → priceLe rev b c = true → priceLe rev a c = true := by
  unfold priceLe
  cases rev <;> simp <;> intro h1 h2
  · exact le_trans h1 h2
  · exact le_trans h2 h1

lemma pySorted_pairwise (rev : Bool) (l : List ProductOut) :
    (pySorted rev l).Pairwise (fun a b => priceLe rev a b = true) := by
  unfold pySorted
  letI : IsTotal ProductOut (fun a b => priceLe rev a b = true) :=
    ⟨fun a b => priceLe_total rev a b⟩
  letI : IsTrans ProductOut (fun a b => priceLe rev a b = true) :=
    ⟨fun a b c => priceLe_trans rev a b c⟩
  exact List.sorted_insertionSort _ l

lemma filter_insertionSort_of_const {α : Type} (r : α → α → Prop) [DecidableRel r]
    (P : α → Bool) (hP : ∀ a b, P a = true → P b = true → r a b) (l : List α) :
    (l.insertionSort r).filter P = l.filter P := by
  have hpw : (l.filter P).Pairwise r :=
    List.pairwise_of_forall_mem_list
      (fun a ha b hb => hP a b (List.of_mem_filter ha) (List.of_mem_filter hb))
  have h1 : List.Sublist (l.filter P) (l.insertionSort r) :=
    List.sublist_insertionSort hpw (List.filter_sublist l)
  have h2 : (l.filter P).filter P = l.filter P :=
    List.filter_eq_self.mpr (fun a ha => List.of_mem_filter ha)
  have h3 := h1.filter P
  rw [h2] at h3
  have h4 : ((l.insertionSort r).filter P).length = (l.filter P).length :=
    ((List.perm_insertionSort r l).filter P).length_eq
  exact (h3.eq_of_length h4.symm).symm

lemma pySorted_stable (rev : Bool) (l : List ProductOut) (c : ℚ) :
    (pySorted rev l).filter (fun p => p.price == c) =
      l.filter (fun p => p.price == c) := by
  unfold pySorted
  apply filter_insertionSort_of_const
  intro a b ha hb
  have ha' : a.price = c := by simpa using ha
  have hb' : b.price = c := by simpa using hb
  unfold priceLe
  cases rev <;> simp [ha', hb']

lemma maybeSort_length (sbp : Bool) (ord : String) (l : List ProductOut) :
    (maybeSort sbp ord l).length = l.length := by
  unfold maybeSort pySorted
  cases sbp <;> simp [List.length_insertionSort]

/-! ## C6: pagination -/

/-- C6: whenever the filtered set is nonempty, `list_products` succeeds — for
every offset, in particular any offset past the end, so an out-of-range
offset is never an error — with `total` the number of products after
filtering (and before pagination) and `items` the slice
`[offset, offset+limit)` of the filtered-then-optionally-sorted list; and an
offset at or past the end makes that slice empty. -/
theorem list_products_pagination (store : List ProductOut) (name : Option String)
    (sbp : Bool) (ord : String) (limit offset : Nat)
    (h : filterByName store name ≠ []) :
    list_products store name sbp ord limit offset =
      .ok ⟨(filterByName store name).length, limit,
        ((maybeSort sbp ord (filterByName store name)).drop offset).take limit⟩ ∧
    ((filterByName store name).length ≤ offset →
      ((maybeSort sbp ord (filterByName store name)).drop offset).take limit = []) := by
  have hE : (filterByName store name).isEmpty = false := by
    cases hF : filterByName store name
    · exact absurd hF h
    · rfl
  constructor
  · simp only [list_products, hE, Bool.false_eq_true, if_false]
    rw [maybeSort_length]
  · intro hle
    have hd : (maybeSort sbp ord (filterByName store name)).drop offset = [] :=
      List.drop_eq_nil_of_le (by rw [maybeSort_length]; exact hle)
    rw [hd, List.take_nil]

/-- C6 witness: `limit=2, offset=1` over 5 matching items returns
`items[1:3]` with `total=5`, and `offset=9` — past the end of the same 5
items — returns a success with an empty page, not an error. -/
theorem list_products_pagination_witness :
    list_products store5 none false "asc" 2 1 = .ok ⟨5, 2, [outB, outC]⟩ ∧
    list_products store5 none false "asc" 2 9 = .ok ⟨5, 2, []⟩ ∧
    ((filterByName store5 none).length ≤ 9 →
      ((maybeSort false "asc" (filterByName store5 none)).drop 9).take 2 = []) :=
  ⟨(list_products_pagination store5 none false "asc" 2 1 (by decide)).1,
   (list_products_pagination store5 none false "asc" 2 9 (by decide)).1,
   (list_products_pagination store5 none false "asc" 2 9 (by decide)).2⟩

/-! ## C7: sorting and stability -/

/-- C7: with `sort_by_price` set, the filtered products are sorted by price
ascending — descending exactly when `order == "desc"` — the sort is stable
(products with equal prices keep their relative order from before sorting),
and the returned page is a slice of that sorted list. -/
theorem list_products_sort_stable (store : List ProductOut) (name : Option String)
    (ord : String) (limit offset : Nat) (r : ListResponse)
    (h : list_products store name true ord limit offset = .ok r) :
    (ord = "desc" →
      (pySorted true (filterByName store name)).Pairwise
        (fun a b => b.price ≤ a.price)) ∧
    (ord ≠ "desc" →
      (pySorted false (filterByName store name)).Pairwise
        (fun a b => a.price ≤ b.price)) ∧
    (∀ c : ℚ,
      (pySorted (ord == "desc") (filterByName store name)).filter
          (fun p => p.price == c) =
        (filterByName store name).filter (fun p => p.price == c)) ∧
    r.items =
      ((pySorted (ord == "desc") (filterByName store name)).drop offset).take
        limit := by
  refine ⟨?_, ?_, fun c => pySorted_stable _ _ c, ?_⟩
  · intro _
    exact (pySorted_pairwise true (filterByName store name)).imp
      (fun hab => by simpa [priceLe] using hab)
  · intro _
    exact (pySorted_pairwise false (filterByName store name)).imp
      (fun hab => by simpa [priceLe] using hab)
  · simp only [list_products] at h
    by_cases hE : (filterByName store name).isEmpty
    · simp [hE] at h
    · simp only [hE, Bool.false_eq_true, if_false] at h
      injection h with h
      subst h
      simp [maybeSort]

/-- C7 witness: a descending sort over a store with a price tie keeps the
tied records (`outA` before `outC`) in their original relative order. -/
theorem list_products_sort_stable_witness :
    list_products storeTie none true "desc" 10 0 =
      .ok ⟨4, 10, [outB, outD, outA, outC]⟩ ∧
    (pySorted true (filterByName storeTie none)).Pairwise
      (fun a b => b.price ≤ a.price) ∧
    (pySorted (("desc" : String) == "desc") (filterByName storeTie none)).filter
        (fun p => p.price == (3 : ℚ)) =
      (filterByName storeTie none).filter (fun p => p.price == (3 : ℚ)) :=
  ⟨rfl,
   (list_products_sort_stable storeTie none "desc" 10 0
      ⟨4, 10, [outB, outD, outA, outC]⟩ rfl).1 rfl,
   (list_products_sort_stable storeTie none "desc" 10 0
      ⟨4, 10, [outB, outD, outA, outC]⟩ rfl).2.2.1 3⟩

/-! ## C10: list-level 404 -/

/-- C10: the list endpoint signals a 404 whenever the product set is empty
after the optional name filter — including when no name filter was supplied:
a parameterless list query against an empty store yields a 404 error, never a
success with `total = 0`. -/
theorem list_products_404_on_empty_filter (store : List ProductOut)
    (name : Option String) (sbp : Bool) (ord : String) (limit offset : Nat)
    (h : filterByName store name = []) :
    list_products store name sbp ord limit offset =
      .error ⟨404, listNotFoundDetail name⟩ ∧
    list_products [] none sbp ord limit offset =
      .error ⟨404, "No product found matching name=None"⟩ := by
  constructor
  · simp [list_products, h]
  · rfl

/-- C10 witness: the empty store with no filter gives the 404. -/
theorem list_products_404_on_empty_filter_witness :
    list_products [] none false "asc" 10 0 =
      .error ⟨404, listNotFoundDetail none⟩ :=
  (list_products_404_on_empty_filter [] none false "asc" 10 0 rfl).1

/-! ## C1: create assigns id and created_at -/

/-- C1: the create handler overwrites `id` and `created_at` with the fresh
UUID and timestamp only in the record it stores; the request schema still
requires a client-supplied `id` and `created_at`, and the 201 response is the
dump of the client payload — carrying the client's `id` and `created_at`, not
the stored record's — together with the computed fields. -/
theorem create_product_echoes_client_payload :
    productValid sampleProduct = true ∧
    create_product "4f1c2f61-40a5-4aae-9d23-0a7a41dca2bd" "2026-02-02T00:00:00Z"
        [] sampleProduct =
      .ok (model_dump sampleProduct,
        [{ model_dump sampleProduct with
           id := "4f1c2f61-40a5-4aae-9d23-0a7a41dca2bd"
           created_at := "2026-02-02T00:00:00Z" }]) ∧
    (model_dump sampleProduct).id = "9c0dba9a-013f-4d88-86dc-18c8dd07b682" ∧
    (model_dump sampleProduct).created_at = "2026-01-01T00:00:00Z" ∧
    (("9c0dba9a-013f-4d88-86dc-18c8dd07b682" : String) ==
      "4f1c2f61-40a5-4aae-9d23-0a7a41dca2bd") = false ∧
    (model_dump sampleProduct).final_price = 100 ∧
    (model_dump sampleProduct).volume_cm3 = 100 :=
  ⟨by decide, rfl, rfl, rfl, rfl,
   by with_unfolding_all rfl, by with_unfolding_all rfl⟩

/-! ## C2: the update model -/

/-- C3: the `stock == 0 → is_active = false` rule holds for every payload the
create model accepts, and a body literally omitting the `is_active` key is
rejected as incomplete (422 "Field required"); but the rule is never checked
against the merged record: a complete body that sets `stock` to 0 and
supplies no value for `is_active` (an explicit null, the only way not to set
it under pydantic v2 requiredness) is accepted against a stored record whose
`is_active` is `true`, and the merged record violates the rule. -/
theorem stock_zero_not_rechecked_post_merge (p : Product)
    (hp : productValid p = true) :
    (p.stock = 0 → p.is_active = false) ∧
    update_endpoint [storedActiveRec] storedActiveRec.id
        { stockZeroPayload with is_active := none } =
      .error ⟨422, "Field required"⟩ ∧
    update_endpoint [storedActiveRec] storedActiveRec.id stockZeroPayload =
      .ok (mergedStockZero, [mergedStockZero]) ∧
    mergedStockZero.stock = 0 ∧
    mergedStockZero.is_active = true := by
  refine ⟨?_, rfl, by with_unfolding_all rfl, rfl, rfl⟩
  intro h0
  cases hia : p.is_active
  · rfl
  · exfalso
    simp [productValid, Product.validate_business_rules, h0, hia] at hp

/-- C3 witness: the create-side rule applied to the sample payload, and the
concrete violating update. -/
theorem stock_zero_not_rechecked_post_merge_witness :
    productValid sampleProduct = true ∧
    (sampleProduct.stock = 0 → sampleProduct.is_active = false) ∧
    update_endpoint [storedActiveRec] storedActiveRec.id stockZeroPayload =
      .ok (mergedStockZero, [mergedStockZero]) :=
  ⟨by decide,
   (stock_zero_not_rechecked_post_merge sampleProduct (by decide)).1,
   (stock_zero_not_rechecked_post_merge sampleProduct (by decide)).2.2.1⟩

/-! ## C4: image_urls and tags cardinality -/

/-- C4: the source constrains `image_urls` with `Field(max_length=1)` (its
own description string says "At least 1 image url"), so a product with an
empty `image_urls` list is accepted and one with two URLs is rejected; every
accepted product has at most one image URL, and the `tags ≤ 10` part of the
claim does hold. -/
theorem image_urls_constraint_inverted (p : Product)
    (hp : productValid p = true) :
    p.image_urls.length ≤ 1 ∧
    (∀ t, p.tags = some t → t.length ≤ 10) ∧
    productValid emptyImgProduct = true ∧
    productValid twoImgProduct = false := by
  have hf : productFieldsOk p = true := by
    have := hp
    simp only [productValid, Bool.and_eq_true] at this
    exact this.1
  simp only [productFieldsOk, Bool.and_eq_true, decide_eq_true_eq] at hf
  refine ⟨hf.1.1.2, ?_, by decide, by decide⟩
  intro t ht
  have h11 := hf.1.1.1.2
  rw [ht] at h11
  simpa using h11

/-- C4 witness: the empty-`image_urls` payload is itself accepted. -/
theorem image_urls_constraint_inverted_witness :
    productValid emptyImgProduct = true ∧
    emptyImgProduct.image_urls.length ≤ 1 ∧
    productValid twoImgProduct = false :=
  ⟨by decide,
   (image_urls_constraint_inverted emptyImgProduct (by decide)).1,
   (image_urls_constraint_inverted emptyImgProduct (by decide)).2.2.2⟩

/-! ## C5: delete error mapping -/

/-- C5 counterexample: deleting a missing id yields a 400 response (the
handler's catch-all), not the 404 the claim requires. -/
theorem delete_missing_id_gives_400 :
    delete_product [] "1db2fca9-3f45-4d27-a7a3-8f7b9f3d2f11" =
      .error ⟨400, "Product not found: 1db2fca9-3f45-4d27-a7a3-8f7b9f3d2f11"⟩ :=
  rfl

/-- C5 (amended): every delete failure — a missing id (`NotFound`) like any
other persistence failure — maps to a 400 InvalidInput-class error carrying
the underlying message; the delete handler never produces a 404. -/
theorem delete_failure_mapping (store : List ProductOut) (pid : String) :
    (∀ e, remove_product store pid = .error e →
      delete_product store pid = .error ⟨400, e⟩) ∧
    (store.find? (fun q => q.id == pid) = none →
      delete_product store pid = .error ⟨400, "Product not found: " ++ pid⟩) := by
  constructor
  · intro e he
    simp [delete_product, he]
  · intro hn
    simp [delete_product, remove_product, hn]

/-- C5 witness: the mapping applied to an empty store. -/
theorem delete_failure_mapping_witness :
    delete_product [] "1db2fca9-0000-0000-0000-8f7b9f3d2f11" =
      .error ⟨400, "Product not found: 1db2fca9-0000-0000-0000-8f7b9f3d2f11"⟩ :=
  (delete_failure_mapping [] "1db2fca9-0000-0000-0000-8f7b9f3d2f11").2 rfl

end Ecom
